import Mathlib

/-!
# Ultimate-ASI-Loader: the `Logging` sink (`source/logger.cpp`, `source/logger.h`)

A shallow embedding of the logging subsystem.  The process-wide globals of
`logger.cpp` (`gLogFile`, `gInitialized`, `gCurrentLevel`, `gLogPath`) together with
the parts of the operating system the sink acts on (file contents, the number of open
handles, the debugger output stream) form one record `World`; every entry point of
the sink is a function `World → World`.

Results of system calls that depend on the environment are inputs of the call that
makes them: whether `CreateFileW` succeeds, what `GetModuleFileNameW` puts into its
buffer, what `GetLocalTime` returns, how many bytes `WriteFile` writes (none when it
fails, fewer than asked when it writes short).  Library and system functions with a
documented, deterministic behaviour (`towlower` in the "C" locale,
`std::filesystem::path` `operator/` and `parent_path`, `swprintf_s` with `%0Nu`,
`WideCharToMultiByte` with `CP_UTF8` and its 32-bit `int` sizes, `OutputDebugStringW`)
are written out.

Text: a `wchar_t` is a Lean `Char` and a `std::wstring` a `List Char`, so the model
covers well-formed UTF-16 text, and the size of a string is the length of the list.
The mutex `gMutex` is not modelled: calls are executed one after the other.
-/

namespace Logging

/-! ## Text -/

/-- A wide string (`std::wstring`, `std::wstring_view`). -/
abbrev wstring := List Char

/-- A `std::filesystem::path`, by its native text. -/
abbrev path := List Char

/-- A wide string literal `L"..."`. -/
def L (s : String) : wstring := s.toList

/-- The C function `::towlower` in the default "C" locale: `A`..`Z` go to `a`..`z`, every other
character is returned unchanged. -/
def towlower (c : Char) : Char :=
  if 65 ≤ c.toNat ∧ c.toNat ≤ 90 then Char.ofNat (c.toNat + 32) else c

/-! ## Levels (`logger.h`) -/

/-- The `enum class Level` of `logger.h`. -/
inductive Level where
  | Debug
  | Info
  | Warning
  | Error
  deriving DecidableEq, Repr

/-- The underlying value of the enumerator, `static_cast<int>(level)`. -/
def Level.toInt : Level → Int
  | .Debug => 0
  | .Info => 1
  | .Warning => 2
  | .Error => 3

/-- Source function `LevelToStringInternal`: the short code of a level.  The `default`
branch of the source answers for values outside the enumeration, which `Level` does not
have. -/
def LevelToStringInternal (level : Level) : wstring :=
  match level with
  | .Debug => L "DEBUG"
  | .Info => L "INFO"
  | .Warning => L "WARN"
  | .Error => L "ERROR"

/-- Source function `ToString`. -/
def ToString (level : Level) : wstring :=
  LevelToStringInternal level

/-- Source function `LevelFromString`: lower-cases a copy of the name with `towlower` and compares it
with the fixed vocabulary. -/
def LevelFromString (levelName : wstring) : Level :=
  let lower := levelName.map towlower
  if lower = L "debug" then Level.Debug
  else if lower = L "warn" ∨ lower = L "warning" then Level.Warning
  else if lower = L "error" ∨ lower = L "err" then Level.Error
  else Level.Info

/-! ## Time stamps -/

/-- The Win32 `SYSTEMTIME` record filled in by `GetLocalTime`; every field is a
16-bit `WORD`. -/
structure SYSTEMTIME where
  wYear : Nat
  wMonth : Nat
  wDayOfWeek : Nat
  wDay : Nat
  wHour : Nat
  wMinute : Nat
  wSecond : Nat
  wMilliseconds : Nat
  deriving DecidableEq, Repr

/-- The values `GetLocalTime` can return, after the documentation of `SYSTEMTIME`:
years 1601 to 30827, months 1 to 12, day of week 0 to 6, days 1 to 31, hours 0 to 23,
minutes and seconds 0 to 59, milliseconds 0 to 999. -/
def SYSTEMTIME.valid (st : SYSTEMTIME) : Prop :=
  (1601 ≤ st.wYear ∧ st.wYear ≤ 30827) ∧ (1 ≤ st.wMonth ∧ st.wMonth ≤ 12) ∧
  st.wDayOfWeek ≤ 6 ∧ (1 ≤ st.wDay ∧ st.wDay ≤ 31) ∧ st.wHour ≤ 23 ∧
  st.wMinute ≤ 59 ∧ st.wSecond ≤ 59 ∧ st.wMilliseconds ≤ 999

instance (st : SYSTEMTIME) : Decidable st.valid := by
  unfold SYSTEMTIME.valid; infer_instance

/-- The conversion `%0<width>u` of `swprintf_s`: the decimal digits of `n`, filled on
the left with `0` up to `width` characters, never cut. -/
def fmtU (width n : Nat) : wstring :=
  let digits := Nat.toDigits 10 n
  List.replicate (width - digits.length) '0' ++ digits

/-- The text `swprintf_s` leaves in `buffer` for the format
`%04u-%02u-%02u %02u:%02u:%02u.%03u`. -/
def FormatTimestamp (st : SYSTEMTIME) : wstring :=
  fmtU 4 st.wYear ++ L "-" ++ fmtU 2 st.wMonth ++ L "-" ++ fmtU 2 st.wDay ++ L " " ++
  fmtU 2 st.wHour ++ L ":" ++ fmtU 2 st.wMinute ++ L ":" ++ fmtU 2 st.wSecond ++ L "." ++
  fmtU 3 st.wMilliseconds

/-- Source function `BuildPrefix`; `st` is the value `GetLocalTime` stored. -/
def BuildPrefix (level : Level) (st : SYSTEMTIME) : wstring :=
  let buffer := FormatTimestamp st
  let pfx : wstring := []
  let pfx := pfx ++ L "["
  let pfx := pfx ++ buffer
  let pfx := pfx ++ L "] ["
  let pfx := pfx ++ LevelToStringInternal level
  let pfx := pfx ++ L "] "
  pfx

/-! ## Paths (`std::filesystem::path`, Windows format) -/

/-- A directory separator, `\` or `/`. -/
def is_slash (c : Char) : Bool := c = Char.ofNat 92 || c = '/'

/-- The `path::preferred_separator` of Windows, `\`. -/
def preferred_separator : Char := Char.ofNat 92

/-- A drive letter followed by a colon starts the text. -/
def has_drive_letter_prefix (s : wstring) : Bool :=
  match s with
  | c0 :: c1 :: _ =>
    ((65 ≤ c0.toNat && c0.toNat ≤ 90) || (97 ≤ c0.toNat && c0.toNat ≤ 122)) && c1 = ':'
  | _ => false

/-- The number of characters of the root-name of a path text: `X:` of a drive, the
three characters of a device name such as `\\?\`, `\\server` of a network name, and
nothing otherwise. -/
def root_name_length (s : wstring) : Nat :=
  if s.length < 2 then 0
  else if has_drive_letter_prefix s then 2
  else
    match s with
    | c0 :: c1 :: c2 :: rest =>
      if !is_slash c0 then 0
      else
        match rest with
        | c3 :: rest4 =>
          if is_slash c3 && (rest4.head?.all fun c => !is_slash c)
              && ((is_slash c1 && (c2 = '?' || c2 = '.')) || (c1 = '?' && c2 = '?')) then 3
          else if is_slash c1 && !is_slash c2 then
            3 + (rest.takeWhile fun c => !is_slash c).length
          else 0
        | [] => if is_slash c1 && !is_slash c2 then 3 else 0
    | _ => 0

/-- Library function `path::is_absolute`: a drive needs a root directory after it, every other root
name makes the path absolute. -/
def is_absolute (p : path) : Bool :=
  if has_drive_letter_prefix p then
    match p.get? 2 with
    | some c => is_slash c
    | none => false
  else root_name_length p != 0

/-- Library function `operator/` of `std::filesystem::path`: `other` resolved relative to `p`. -/
def path_append (p other : path) : path :=
  if is_absolute other then other
  else
    let myRoot := root_name_length p
    let otherRoot := root_name_length other
    if otherRoot ≠ 0 ∧ p.take myRoot ≠ other.take otherRoot then other
    else
      let base : path :=
        if (other.drop otherRoot).head?.any is_slash then p.take myRoot
        else if myRoot = p.length then
          if myRoot ≥ 3 then p ++ [preferred_separator] else p
        else if (p.getLast?.any is_slash) then p
        else p ++ [preferred_separator]
      base ++ other.drop otherRoot

/-- Library function `path::parent_path`: drops the last file name and the separators before it, never
cutting into the root name and root directory. -/
def parent_path (p : path) : path :=
  let root := p.take (root_name_length p)
  let tail := p.drop (root_name_length p)
  let rootDir := tail.takeWhile is_slash
  let rel := tail.dropWhile is_slash
  let rel := (rel.reverse.dropWhile fun c => !is_slash c).reverse
  let rel := (rel.reverse.dropWhile is_slash).reverse
  root ++ rootDir ++ rel

/-! ## The operating system -/

/-- A Win32 file handle: `none` is `INVALID_HANDLE_VALUE`, `some p` a handle on the
file opened under the path text `p`. -/
abbrev HANDLE := Option path

/-- The invalid handle. -/
def INVALID_HANDLE_VALUE : HANDLE := none

/-- The conversion `static_cast<int>` of a size: the value modulo `2^32`, read as a
signed 32-bit number. -/
def toInt32 (n : Nat) : Int :=
  if n % 4294967296 < 2147483648 then ((n % 4294967296 : Nat) : Int)
  else ((n % 4294967296 : Nat) : Int) - 4294967296

/-- The text behind a pointer to a NUL-terminated string, such as `line.c_str()`: the
characters before the first NUL. -/
def c_str (line : wstring) : wstring :=
  line.takeWhile fun c => c ≠ Char.ofNat 0

/-- The UTF-8 bytes of one character. -/
def utf8EncodeChar (c : Char) : List Nat :=
  let n := c.toNat
  if n < 0x80 then [n]
  else if n < 0x800 then [0xC0 + n / 64, 0x80 + n % 64]
  else if n < 0x10000 then [0xE0 + n / 4096, 0x80 + n / 64 % 64, 0x80 + n % 64]
  else [0xF0 + n / 262144, 0x80 + n / 4096 % 64, 0x80 + n / 64 % 64, 0x80 + n % 64]

/-- The UTF-8 bytes of a text. -/
def utf8Encode (text : wstring) : List Nat :=
  text.flatMap utf8EncodeChar

/-- System call `WideCharToMultiByte(CP_UTF8, 0, data, cchWideChar, buffer,
cbMultiByte, nullptr, nullptr)`: its `int` return value and the bytes it stores in
`buffer`.  A size `cchWideChar` of 0 or below -1 is an invalid parameter; -1 asks for
the text up to and with its terminating NUL; a positive size for exactly that many
characters.  A byte count that does not fit the `int` return value is a failure, and
so is a buffer that is too small; `cbMultiByte = 0` only asks for the count.  The
return value 0 reports failure. -/
def WideCharToMultiByte (data : wstring) (cchWideChar : Int) (cbMultiByte : Int) :
    Int × List Nat :=
  if cchWideChar = 0 ∨ cchWideChar < -1 then (0, [])
  else
    let source : wstring :=
      if cchWideChar = -1 then c_str data ++ [Char.ofNat 0]
      else data.take cchWideChar.toNat
    let bytes := utf8Encode source
    if 2147483648 ≤ bytes.length then (0, [])
    else if cbMultiByte = 0 then ((bytes.length : Int), [])
    else if cbMultiByte < (bytes.length : Int) then (0, [])
    else ((bytes.length : Int), bytes)

/-- The sink's globals and the part of the system it acts on. -/
structure World where
  /-- Global `gLogFile`. -/
  gLogFile : HANDLE
  /-- Global `gInitialized`. -/
  gInitialized : Bool
  /-- Global `gCurrentLevel`. -/
  gCurrentLevel : Level
  /-- Global `gLogPath`. -/
  gLogPath : path
  /-- The bytes of every file, by the text of its path; a file that does not exist
  has no bytes. -/
  disk : path → List Nat
  /-- How many handles obtained from `CreateFileW` have not been closed. -/
  openHandles : Nat
  /-- The strings handed to `OutputDebugStringW`, oldest first. -/
  debugOut : List wstring

/-- The state of the globals at process start, over any state of the system. -/
def World.start (disk : path → List Nat) (openHandles : Nat) (debugOut : List wstring) :
    World where
  gLogFile := INVALID_HANDLE_VALUE
  gInitialized := false
  gCurrentLevel := Level.Info
  gLogPath := []
  disk := disk
  openHandles := openHandles
  debugOut := debugOut

/-- System call `CreateFileW(name, FILE_APPEND_DATA, ..., OPEN_ALWAYS, ...)`: when the
system grants the open (`granted`), a handle on the file `name`, a NUL-terminated
string; otherwise the invalid handle.  Creating a missing file adds no bytes. -/
def CreateFileW (name : wstring) (granted : Bool) (w : World) : HANDLE × World :=
  if granted then (some (c_str name), { w with openHandles := w.openHandles + 1 })
  else (INVALID_HANDLE_VALUE, w)

/-- System call `CloseHandle`. -/
def CloseHandle (_h : path) (w : World) : World :=
  { w with openHandles := w.openHandles - 1 }

/-- System call `WriteFile` through a handle opened with `FILE_APPEND_DATA`: the
first `bytesWritten` of the bytes go to the end of the file.  `bytesWritten` is the
system's answer: 0 when the write fails, less than the number of bytes when it writes
short, the number of bytes when it succeeds in full. -/
def WriteFile (h : path) (bytes : List Nat) (bytesWritten : Nat) (w : World) : World :=
  { w with disk := Function.update w.disk h (w.disk h ++ bytes.take bytesWritten) }

/-- System call `OutputDebugStringW`, on a NUL-terminated string. -/
def OutputDebugStringW (text : wstring) (w : World) : World :=
  { w with debugOut := w.debugOut ++ [c_str text] }

/-! ## The sink (`logger.cpp`) -/

/-- Source function `WriteLineUnlocked`; `bytesWritten` is the answer of `WriteFile`,
which the source ignores.  `requiredSize` and the size handed to the conversion are
`int`: the size of the line goes through `static_cast<int>`. -/
def WriteLineUnlocked (line : wstring) (bytesWritten : Nat) (w : World) : World :=
  match w.gLogFile with
  | none => w
  | some h =>
    if line.isEmpty then w
    else
      let requiredSize : Int := (WideCharToMultiByte line (toInt32 line.length) 0).1
      if requiredSize ≤ 0 then w
      else
        let converted := WideCharToMultiByte line (toInt32 line.length) requiredSize
        let utf8 := converted.2
        if converted.1 ≤ 0 then w
        else WriteFile h utf8 bytesWritten w

/-- The text of the banner `Initialize` writes. -/
def header : wstring := L "=== Ultimate ASI Loader logging started ===\r\n"

/-- The text of the banner `Shutdown` writes. -/
def footer : wstring := L "=== Ultimate ASI Loader logging finished ===\r\n"

/-- The file name of the log. -/
def logFileName : wstring := L "Ultimate-ASI-Loader.log"

/-- Source function `Initialize`.  `moduleFileName` is what `GetModuleFileNameW`
stores in its buffer (nothing when it fails and returns 0), `granted` whether
`CreateFileW` succeeds, `bytesWritten` the answer of `WriteFile` for the banner. -/
def Initialize (moduleDirectory : path) (moduleFileName : wstring) (granted : Bool)
    (bytesWritten : Nat) (w : World) : World :=
  if w.gInitialized then w
  else
    let w :=
      if !moduleDirectory.isEmpty then
        { w with gLogPath := path_append moduleDirectory logFileName }
      else if moduleFileName.length > 0 then
        let modulePath : path := moduleFileName
        { w with gLogPath := path_append (parent_path modulePath) logFileName }
      else w
    let (h, w) := CreateFileW w.gLogPath granted w
    let w := { w with gLogFile := h }
    if w.gLogFile ≠ INVALID_HANDLE_VALUE then
      let w := { w with gInitialized := true }
      WriteLineUnlocked header bytesWritten w
    else w

/-- Source function `Shutdown`; `bytesWritten` is the answer of `WriteFile` for the
banner. -/
def Shutdown (bytesWritten : Nat) (w : World) : World :=
  let w :=
    match w.gLogFile with
    | some h =>
      let w := WriteLineUnlocked footer bytesWritten w
      let w := CloseHandle h w
      { w with gLogFile := INVALID_HANDLE_VALUE }
    | none => w
  { w with gInitialized := false }

/-- Source function `SetLevel`. -/
def SetLevel (level : Level) (w : World) : World :=
  { w with gCurrentLevel := level }

/-- Source function `SetLevelFromString`: the level it returns and the state it leaves. -/
def SetLevelFromString (levelName : wstring) (w : World) : Level × World :=
  let parsedLevel := LevelFromString levelName
  (parsedLevel, SetLevel parsedLevel w)

/-- Source function `GetLevel`. -/
def GetLevel (w : World) : Level := w.gCurrentLevel

/-- Source function `GetLogFilePath`. -/
def GetLogFilePath (w : World) : path := w.gLogPath

/-- Source function `IsInitialized`. -/
def IsInitialized (w : World) : Bool := w.gInitialized

/-- The line `Log` builds: the output of `BuildPrefix`, the message, `\r\n`. -/
def BuildLine (level : Level) (message : wstring) (st : SYSTEMTIME) : wstring :=
  let line := BuildPrefix level st
  let line := line ++ message
  let line := line ++ L "\r\n"
  line

/-- Source function `Log`; `st` is the local time `GetLocalTime` returns inside
`BuildPrefix`, `bytesWritten` the answer of `WriteFile` for the line. -/
def Log (level : Level) (message : wstring) (st : SYSTEMTIME) (bytesWritten : Nat)
    (w : World) : World :=
  let currentLevel := GetLevel w
  if level.toInt < currentLevel.toInt then w
  else
    let line := BuildLine level message st
    let w := OutputDebugStringW line w
    WriteLineUnlocked line bytesWritten w

/-! ## Sequences of calls -/

/-- One call of the public interface, with the environment's answers to it. -/
inductive Call where
  | Initialize (moduleDirectory : path) (moduleFileName : wstring) (granted : Bool)
      (bytesWritten : Nat)
  | Shutdown (bytesWritten : Nat)
  | SetLevel (level : Level)
  | SetLevelFromString (levelName : wstring)
  | Log (level : Level) (message : wstring) (st : SYSTEMTIME) (bytesWritten : Nat)

/-- The state after one call. -/
def Call.exec (c : Call) (w : World) : World :=
  match c with
  | .Initialize d f g n => Logging.Initialize d f g n w
  | .Shutdown n => Logging.Shutdown n w
  | .SetLevel l => Logging.SetLevel l w
  | .SetLevelFromString s => (Logging.SetLevelFromString s w).2
  | .Log l m st n => Logging.Log l m st n w

/-- The state after a sequence of calls, first call first. -/
def run (calls : List Call) (w : World) : World :=
  calls.foldl (fun w c => c.exec w) w

/-! ## Sample states -/

/-- A local time: 5 March 2024, 07:08:09.042. -/
def sampleTime : SYSTEMTIME :=
  { wYear := 2024, wMonth := 3, wDayOfWeek := 2, wDay := 5, wHour := 7, wMinute := 8,
    wSecond := 9, wMilliseconds := 42 }

/-- A local time in the year 10000: 1 January 10000, 00:00:00.000. -/
def farTime : SYSTEMTIME :=
  { wYear := 10000, wMonth := 1, wDayOfWeek := 6, wDay := 1, wHour := 0, wMinute := 0,
    wSecond := 0, wMilliseconds := 0 }

/-- Process start over an empty disk, no handle open, nothing traced. -/
def freshWorld : World := World.start (fun _ => []) 0 []

/-- The path of the log under the directory `C:\app`. -/
def samplePath : path := L "C:\\app\\Ultimate-ASI-Loader.log"

/-- The state after a successful `Initialize` with the directory `C:\app`, the 45
bytes of the banner written in full. -/
def openWorld : World := Initialize (L "C:\\app") [] true 45 freshWorld

/-- The state after a successful `Initialize` with the directory `C:\app` whose
banner write failed. -/
def openWorldNoBanner : World := Initialize (L "C:\\app") [] true 0 freshWorld

/-- The state `openWorld` with the threshold set to Error. -/
def errorWorld : World := SetLevel Level.Error openWorld

/-! ## Auxiliary facts -/

theorem utf8EncodeChar_ne_nil (c : Char) : utf8EncodeChar c ≠ [] := by
  unfold utf8EncodeChar
  simp only []
  split_ifs <;> simp

theorem utf8Encode_ne_nil (line : wstring) (h : line ≠ []) : utf8Encode line ≠ [] := by
  cases line with
  | nil => exact absurd rfl h
  | cons c cs =>
    have hc := utf8EncodeChar_ne_nil c
    simp [utf8Encode, List.flatMap_cons, hc]

/-- A text has at most as many characters as its UTF-8 form has bytes. -/
theorem length_le_utf8Encode (line : wstring) : line.length ≤ (utf8Encode line).length := by
  induction line with
  | nil => simp [utf8Encode]
  | cons c cs ih =>
    have hc : 0 < (utf8EncodeChar c).length := List.length_pos.mpr (utf8EncodeChar_ne_nil c)
    have hcons : utf8Encode (c :: cs) = utf8EncodeChar c ++ utf8Encode cs := by
      simp [utf8Encode, List.flatMap_cons]
    rw [hcons, List.length_append, List.length_cons]
    omega

/-- Below `2^31` the conversion `static_cast<int>` keeps the value. -/
theorem toInt32_of_lt (n : Nat) (h : n < 2147483648) : toInt32 n = (n : Int) := by
  have hmod : n % 4294967296 = n := Nat.mod_eq_of_lt (by omega)
  unfold toInt32
  rw [hmod, if_pos h]

/-- On a text that is not empty and whose UTF-8 form is shorter than `2^31` bytes, both
calls of the conversion succeed: the first returns the byte count, the second stores
the UTF-8 form. -/
theorem WideCharToMultiByte_fits (line : wstring) (hline : line ≠ [])
    (hsize : (utf8Encode line).length < 2147483648) :
    WideCharToMultiByte line (toInt32 line.length) 0 =
        (((utf8Encode line).length : Int), []) ∧
    WideCharToMultiByte line (toInt32 line.length) ((utf8Encode line).length : Int) =
        (((utf8Encode line).length : Int), utf8Encode line) := by
  have hlen : line.length < 2147483648 := lt_of_le_of_lt (length_le_utf8Encode line) hsize
  have hpos : 0 < line.length := List.length_pos.mpr hline
  have hupos : 0 < (utf8Encode line).length :=
    List.length_pos.mpr (utf8Encode_ne_nil line hline)
  have h0 : ¬ (((line.length : Nat) : Int) = 0 ∨ ((line.length : Nat) : Int) < -1) := by omega
  have h1 : ¬ ((line.length : Nat) : Int) = -1 := by omega
  have h2 : ¬ 2147483648 ≤ (utf8Encode line).length := by omega
  have h3 : ¬ (((utf8Encode line).length : Nat) : Int) = 0 := by omega
  rw [toInt32_of_lt _ hlen]
  unfold WideCharToMultiByte
  simp only [h0, h1, if_false, Int.toNat_ofNat, List.take_length, h2, h3, lt_self_iff_false,
    if_true]
  exact ⟨trivial, trivial⟩

theorem BuildLine_eq (level : Level) (message : wstring) (st : SYSTEMTIME) :
    BuildLine level message st =
      L "[" ++ FormatTimestamp st ++ L "] [" ++ ToString level ++ L "] " ++ message
        ++ L "\r\n" := by
  simp [BuildLine, BuildPrefix, ToString]

theorem BuildLine_ne_nil (level : Level) (message : wstring) (st : SYSTEMTIME) :
    BuildLine level message st ≠ [] := by
  rw [BuildLine_eq]
  simp [L]

/-- With a valid handle, a line that is not empty and whose UTF-8 form is shorter than
`2^31` bytes is handed to `WriteFile` as its UTF-8 form. -/
theorem WriteLineUnlocked_valid (line : wstring) (n : Nat) (w : World) (h : path)
    (hfile : w.gLogFile = some h) (hline : line ≠ [])
    (hsize : (utf8Encode line).length < 2147483648) :
    WriteLineUnlocked line n w = WriteFile h (utf8Encode line) n w := by
  obtain ⟨e1, e2⟩ := WideCharToMultiByte_fits line hline hsize
  have hupos : 0 < (utf8Encode line).length :=
    List.length_pos.mpr (utf8Encode_ne_nil line hline)
  have hnot : ¬ (((utf8Encode line).length : Nat) : Int) ≤ 0 := by omega
  unfold WriteLineUnlocked
  rw [hfile]
  simp only [e1, e2, hnot, if_false]
  simp [hline]

/-- When the first call of the conversion reports a positive size, the second call,
on the same text and with a buffer of that size, reports the same size. -/
theorem WideCharToMultiByte_second (line : wstring) (cch : Int)
    (hpos : 0 < (WideCharToMultiByte line cch 0).1) :
    (WideCharToMultiByte line cch (WideCharToMultiByte line cch 0).1).1 =
      (WideCharToMultiByte line cch 0).1 := by
  unfold WideCharToMultiByte at hpos ⊢
  by_cases hbad : cch = 0 ∨ cch < -1
  · simp [hbad] at hpos
  · simp only [hbad, if_false] at hpos ⊢
    split_ifs at hpos ⊢ <;> simp_all

/-- A line of `2^31` characters or more, up to `2^32 - 2`, is dropped: its size becomes
a negative `int` below -1, which the conversion refuses. -/
theorem WriteLineUnlocked_size_wraps (line : wstring) (n : Nat) (w : World)
    (hlo : 2147483648 ≤ line.length) (hhi : line.length < 4294967295) :
    WriteLineUnlocked line n w = w := by
  have hmod : line.length % 4294967296 = line.length := Nat.mod_eq_of_lt (by omega)
  have hcast : toInt32 line.length = (line.length : Int) - 4294967296 := by
    unfold toInt32
    rw [hmod, if_neg (by omega)]
  have hbad : toInt32 line.length = 0 ∨ toInt32 line.length < -1 := by
    right
    rw [hcast]
    omega
  have hzero : (WideCharToMultiByte line (toInt32 line.length) 0).1 = 0 := by
    unfold WideCharToMultiByte
    rw [if_pos hbad]
  unfold WriteLineUnlocked
  cases w.gLogFile with
  | none => rfl
  | some h =>
    simp only [hzero, le_refl, if_true]
    split_ifs <;> rfl

/-- Frame of `WriteLineUnlocked`: it changes nothing but file contents. -/
theorem WriteLineUnlocked_frame (line : wstring) (n : Nat) (w : World) :
    WriteLineUnlocked line n w = { w with disk := (WriteLineUnlocked line n w).disk } := by
  obtain ⟨file, _, _, _, _, _, _⟩ := w
  unfold WriteLineUnlocked
  cases file with
  | none => rfl
  | some h =>
    simp only []
    split_ifs <;> rfl

/-- Whatever the conversion and the write answer, `WriteLineUnlocked` at most appends
bytes to the file of the handle. -/
theorem WriteLineUnlocked_appends (line : wstring) (n : Nat) (w : World) (h : path)
    (hfile : w.gLogFile = some h) :
    ∃ bytes : List Nat,
      (WriteLineUnlocked line n w).disk = Function.update w.disk h (w.disk h ++ bytes) := by
  have hsame : w.disk = Function.update w.disk h (w.disk h ++ []) := by
    rw [List.append_nil, Function.update_eq_self]
  unfold WriteLineUnlocked
  rw [hfile]
  simp only []
  split_ifs
  · exact ⟨[], hsame⟩
  · exact ⟨[], hsame⟩
  · exact ⟨[], hsame⟩
  · exact ⟨_, rfl⟩

/-- A message below the threshold leaves everything as it was. -/
theorem Log_below (level : Level) (message : wstring) (st : SYSTEMTIME) (n : Nat)
    (w : World) (hlt : level.toInt < w.gCurrentLevel.toInt) :
    Log level message st n w = w := by
  simp [Log, GetLevel, hlt]

/-- A message at or above the threshold is mirrored and handed to `WriteLineUnlocked`. -/
theorem Log_accepted (level : Level) (message : wstring) (st : SYSTEMTIME) (n : Nat)
    (w : World) (hge : w.gCurrentLevel.toInt ≤ level.toInt) :
    Log level message st n w =
      WriteLineUnlocked (BuildLine level message st) n
        (OutputDebugStringW (BuildLine level message st) w) := by
  have hnot : ¬ level.toInt < w.gCurrentLevel.toInt := by omega
  simp [Log, GetLevel, hnot]

/-- Frame of `Log`: it changes nothing but file contents and the debugger stream. -/
theorem Log_frame (level : Level) (message : wstring) (st : SYSTEMTIME) (n : Nat)
    (w : World) :
    Log level message st n w =
      { w with disk := (Log level message st n w).disk,
               debugOut := (Log level message st n w).debugOut } := by
  by_cases hlt : level.toInt < w.gCurrentLevel.toInt
  · rw [Log_below level message st n w hlt]
  · rw [Log_accepted level message st n w (by omega)]
    rw [WriteLineUnlocked_frame]
    rfl

/-- After `Shutdown` the handle is invalid and the flag is cleared. -/
theorem Shutdown_globals (n : Nat) (w : World) :
    (Shutdown n w).gLogFile = INVALID_HANDLE_VALUE ∧ (Shutdown n w).gInitialized = false := by
  obtain ⟨file, _, _, _, _, _, _⟩ := w
  unfold Shutdown
  cases file <;> exact ⟨rfl, rfl⟩

/-- On an uninitialized sink `Initialize` stores the result of `CreateFileW` in
`gLogFile` and sets the flag exactly when that handle is valid. -/
theorem Initialize_globals (d : path) (f : wstring) (g : Bool) (n : Nat) (w : World)
    (hun : w.gInitialized = false) :
    (Initialize d f g n w).gLogFile =
        (if g then some (c_str (Initialize d f g n w).gLogPath)
          else INVALID_HANDLE_VALUE) ∧
    (Initialize d f g n w).gInitialized = g := by
  obtain ⟨_, ini, _, _, _, _, _⟩ := w
  simp only at hun
  subst hun
  unfold Initialize
  cases g
  · simp only [CreateFileW, INVALID_HANDLE_VALUE, Bool.false_eq_true, if_false, ne_eq,
      not_true_eq_false]
    refine ⟨trivial, ?_⟩
    split_ifs <;> rfl
  · simp only [CreateFileW, INVALID_HANDLE_VALUE, Bool.false_eq_true, if_false, if_true,
      ne_eq, not_false_eq_true, reduceCtorEq]
    constructor <;> rw [WriteLineUnlocked_frame]

/-- A successful `Initialize` on an uninitialized sink: the globals it sets, the
handle it opens and the part of the banner that `WriteFile` appends to the file of the
resolved path. -/
theorem Initialize_granted (d : path) (f : wstring) (n : Nat) (w : World)
    (hun : w.gInitialized = false) :
    Initialize d f true n w =
      { w with
        gLogFile := some (c_str (Initialize d f true n w).gLogPath)
        gInitialized := true
        gLogPath := (Initialize d f true n w).gLogPath
        disk := Function.update w.disk (c_str (Initialize d f true n w).gLogPath)
          (w.disk (c_str (Initialize d f true n w).gLogPath) ++ (utf8Encode header).take n)
        openHandles := w.openHandles + 1 } := by
  have hhead : header ≠ [] := by decide
  have hsize : (utf8Encode header).length < 2147483648 := by decide
  obtain ⟨_, ini, _, _, _, _, _⟩ := w
  simp only at hun
  subst hun
  unfold Initialize
  simp only [CreateFileW, INVALID_HANDLE_VALUE, Bool.false_eq_true, if_false, if_true,
    ne_eq, not_false_eq_true, reduceCtorEq]
  rw [WriteLineUnlocked_valid header n _ _ rfl hhead hsize]
  split_ifs <;> rfl

/-- A failed `Initialize` on an uninitialized sink changes at most `gLogPath` and
leaves the handle invalid. -/
theorem Initialize_refused (d : path) (f : wstring) (n : Nat) (w : World)
    (hun : w.gInitialized = false) :
    Initialize d f false n w =
      { w with
        gLogFile := INVALID_HANDLE_VALUE
        gLogPath := (Initialize d f false n w).gLogPath } := by
  obtain ⟨_, ini, _, _, _, _, _⟩ := w
  simp only at hun
  subst hun
  unfold Initialize
  simp only [CreateFileW, INVALID_HANDLE_VALUE, Bool.false_eq_true, if_false, ne_eq,
    not_true_eq_false]
  split_ifs <;> rfl

/-- On an initialized sink `Initialize` returns at once. -/
theorem Initialize_again (d : path) (f : wstring) (g : Bool) (n : Nat) (w : World)
    (hin : w.gInitialized = true) : Initialize d f g n w = w := by
  simp [Initialize, hin]

/-- With a valid handle `Shutdown` works as follows: the part of the banner that
`WriteFile` writes is appended, the handle closed. -/
theorem Shutdown_valid (n : Nat) (w : World) (h : path) (hfile : w.gLogFile = some h) :
    Shutdown n w =
      { w with
        gLogFile := INVALID_HANDLE_VALUE
        gInitialized := false
        disk := Function.update w.disk h (w.disk h ++ (utf8Encode footer).take n)
        openHandles := w.openHandles - 1 } := by
  have hfoot : footer ≠ [] := by decide
  have hsize : (utf8Encode footer).length < 2147483648 := by decide
  obtain ⟨file, _, _, _, _, _, _⟩ := w
  simp only at hfile
  subst hfile
  unfold Shutdown
  simp only []
  rw [WriteLineUnlocked_valid footer n _ h rfl hfoot hsize]
  rfl

/-- Without a valid handle `Shutdown` only clears the flag. -/
theorem Shutdown_invalid (n : Nat) (w : World) (hfile : w.gLogFile = INVALID_HANDLE_VALUE) :
    Shutdown n w = { w with gInitialized := false } := by
  obtain ⟨file, _, _, _, _, _, _⟩ := w
  simp only at hfile
  subst hfile
  rfl

/-- A number of at least `b ^ k` has more than `k` digits in base `b`. -/
theorem toDigitsCore_length_gt (b : Nat) (hb : 1 < b) :
    ∀ (k fuel n : Nat), b ^ k ≤ n → k < fuel →
      k + 1 ≤ (Nat.toDigitsCore b fuel n []).length := by
  intro k
  induction k with
  | zero =>
    intro fuel n _ hfuel
    obtain ⟨f, rfl⟩ : ∃ f, fuel = f + 1 := ⟨fuel - 1, by omega⟩
    unfold Nat.toDigitsCore
    simp only []
    split_ifs
    · simp
    · rw [Nat.toDigitsCore_lens_eq]
      omega
  | succ k ih =>
    intro fuel n hn hfuel
    obtain ⟨f, rfl⟩ : ∃ f, fuel = f + 1 := ⟨fuel - 1, by omega⟩
    have hdiv : b ^ k ≤ n / b := by
      rw [Nat.le_div_iff_mul_le (by omega)]
      rw [pow_succ] at hn
      exact hn
    have hpos : 0 < b ^ k := Nat.pow_pos (by omega)
    have hne : ¬ n / b = 0 := by omega
    unfold Nat.toDigitsCore
    simp only []
    rw [if_neg hne, Nat.toDigitsCore_lens_eq]
    have := ih f (n / b) hdiv (by omega)
    omega

/-- A field below `10 ^ width` is printed with exactly `width` characters. -/
theorem fmtU_length (width n : Nat) (hw : 0 < width) (hn : n < 10 ^ width) :
    (fmtU width n).length = width := by
  have hlen : (Nat.toDigits 10 n).length ≤ width := Nat.repr_length n width hw hn
  simp only [fmtU, List.length_append, List.length_replicate]
  omega

/-- A field is never printed with fewer than `width` characters. -/
theorem fmtU_length_ge (width n : Nat) : width ≤ (fmtU width n).length := by
  simp only [fmtU, List.length_append, List.length_replicate]
  omega

/-- A field from `10 ^ width` on, below `10 ^ (width + 1)`, is printed with
`width + 1` characters. -/
theorem fmtU_length_succ (width n : Nat) (hlo : 10 ^ width ≤ n)
    (hhi : n < 10 ^ (width + 1)) : (fmtU width n).length = width + 1 := by
  have hle : (Nat.toDigits 10 n).length ≤ width + 1 :=
    Nat.repr_length n (width + 1) (by omega) hhi
  have hpow : width < 10 ^ width := Nat.lt_pow_self (by decide) width
  have hge : width + 1 ≤ (Nat.toDigits 10 n).length :=
    toDigitsCore_length_gt 10 (by decide) width (n + 1) n hlo (by omega)
  simp only [fmtU, List.length_append, List.length_replicate]
  omega

/-- C1, refuted as stated: on an open sink with threshold Info, `Log(Warning, "disk
low")` passes the filter, yet when `WriteFile` fails (writes no byte) the file is left
as it was: no line is appended although the level is at or above the threshold. -/
theorem C1_failed_write_counterexample :
    openWorld.gLogFile = some samplePath ∧
    openWorld.gCurrentLevel = Level.Info ∧
    Level.Info.toInt ≤ Level.Warning.toInt ∧
    utf8Encode (BuildLine Level.Warning (L "disk low") sampleTime) ≠ [] ∧
    (Log Level.Warning (L "disk low") sampleTime 0 openWorld).disk samplePath =
      openWorld.disk samplePath ∧
    (Log Level.Warning (L "disk low") sampleTime 0 openWorld).disk samplePath ≠
      openWorld.disk samplePath ++
        utf8Encode (BuildLine Level.Warning (L "disk low") sampleTime) := by
  decide

/-- C1, amended. Severity filter: on a sink with a valid file handle `h` and threshold
`T`, `Log(L, m)` leaves every file (and the whole state) unchanged when `L < T`; when
`L ≥ T` (Debug < Info < Warning < Error) it changes no file but that of the handle,
and only by appending; if the UTF-8 form of the line it built is shorter than `2^31`
bytes, what it appends is the first `bytesWritten` bytes of that one line (which is
not empty and ends in CR LF), so exactly the one line when `WriteFile` writes all of
it, and nothing when `WriteFile` fails. -/
theorem C1_severity_filter (T lvl : Level) (m : wstring) (st : SYSTEMTIME)
    (bytesWritten : Nat) (w : World) (h : path)
    (hfile : w.gLogFile = some h) (hT : w.gCurrentLevel = T) :
    (lvl.toInt < T.toInt →
      (Log lvl m st bytesWritten w).disk = w.disk ∧ Log lvl m st bytesWritten w = w) ∧
    (T.toInt ≤ lvl.toInt →
      ∃ bytes : List Nat,
        (Log lvl m st bytesWritten w).disk = Function.update w.disk h (w.disk h ++ bytes)) ∧
    (T.toInt ≤ lvl.toInt → (utf8Encode (BuildLine lvl m st)).length < 2147483648 →
      (Log lvl m st bytesWritten w).disk =
          Function.update w.disk h
            (w.disk h ++ (utf8Encode (BuildLine lvl m st)).take bytesWritten) ∧
      ((utf8Encode (BuildLine lvl m st)).length ≤ bytesWritten →
        (Log lvl m st bytesWritten w).disk =
          Function.update w.disk h (w.disk h ++ utf8Encode (BuildLine lvl m st))) ∧
      (bytesWritten = 0 → (Log lvl m st bytesWritten w).disk = w.disk)) ∧
    utf8Encode (BuildLine lvl m st) ≠ [] ∧
    BuildLine lvl m st =
      L "[" ++ FormatTimestamp st ++ L "] [" ++ ToString lvl ++ L "] " ++ m ++ L "\r\n" ∧
    (Level.Debug.toInt < Level.Info.toInt ∧ Level.Info.toInt < Level.Warning.toInt ∧
      Level.Warning.toInt < Level.Error.toInt) := by
  subst hT
  have hfile' : (OutputDebugStringW (BuildLine lvl m st) w).gLogFile = some h := hfile
  refine ⟨fun hlt => ?_, fun hge => ?_, fun hge hsize => ?_,
    utf8Encode_ne_nil _ (BuildLine_ne_nil lvl m st), BuildLine_eq lvl m st, by decide⟩
  · rw [Log_below lvl m st bytesWritten w hlt]
    exact ⟨rfl, rfl⟩
  · rw [Log_accepted lvl m st bytesWritten w hge]
    exact WriteLineUnlocked_appends _ _ _ h hfile'
  · have hdisk : (Log lvl m st bytesWritten w).disk =
        Function.update w.disk h
          (w.disk h ++ (utf8Encode (BuildLine lvl m st)).take bytesWritten) := by
      rw [Log_accepted lvl m st bytesWritten w hge,
        WriteLineUnlocked_valid _ _ _ h hfile' (BuildLine_ne_nil lvl m st) hsize]
      rfl
    refine ⟨hdisk, fun hfull => ?_, fun hzero => ?_⟩
    · rw [hdisk, List.take_of_length_le hfull]
    · rw [hdisk, hzero, List.take_zero, List.append_nil, Function.update_eq_self]

/-- C1 amended, at a concrete input: with threshold Info on an open sink a Warning
whose 43 bytes are written in full goes to the file, and a Debug message does not. -/
theorem C1_severity_filter_witness :
    (Log Level.Warning (L "disk low") sampleTime 43 openWorld).disk =
        Function.update openWorld.disk samplePath
          (openWorld.disk samplePath ++
            utf8Encode (BuildLine Level.Warning (L "disk low") sampleTime)) ∧
    (Log Level.Debug (L "disk low") sampleTime 43 openWorld).disk = openWorld.disk ∧
    utf8Encode (BuildLine Level.Warning (L "disk low") sampleTime) =
      (L "[2024-03-05 07:08:09.042] [WARN] disk low\r\n").map Char.toNat :=
  ⟨((C1_severity_filter Level.Info Level.Warning (L "disk low") sampleTime 43 openWorld
      samplePath (by decide) (by decide)).2.2.1 (by decide) (by decide)).2.1 (by decide),
   ((C1_severity_filter Level.Info Level.Debug (L "disk low") sampleTime 43 openWorld
      samplePath (by decide) (by decide)).1 (by decide)).1,
   by decide⟩

/-- C2. `SetLevelFromString` is total and case-insensitive: it returns (and stores)
Debug exactly when the lower-cased name is "debug", Warning exactly for "warn" and
"warning", Error exactly for "error" and "err", and Info for every other name; names
that agree after lower-casing get the same level; "Error", "ERR" and "err" give
Error, "" and "bogus" give Info. -/
theorem C2_SetLevelFromString_total (s : wstring) (w : World) :
    ((SetLevelFromString s w).1 = Level.Debug ↔ s.map towlower = L "debug") ∧
    ((SetLevelFromString s w).1 = Level.Warning ↔
      (s.map towlower = L "warn" ∨ s.map towlower = L "warning")) ∧
    ((SetLevelFromString s w).1 = Level.Error ↔
      (s.map towlower = L "error" ∨ s.map towlower = L "err")) ∧
    ((SetLevelFromString s w).1 = Level.Info ↔
      ¬ (s.map towlower = L "debug" ∨ s.map towlower = L "warn" ∨
        s.map towlower = L "warning" ∨ s.map towlower = L "error" ∨
        s.map towlower = L "err")) ∧
    (SetLevelFromString s w).2.gCurrentLevel = (SetLevelFromString s w).1 ∧
    (∀ t : wstring, t.map towlower = s.map towlower →
      (SetLevelFromString t w).1 = (SetLevelFromString s w).1) ∧
    (SetLevelFromString (L "Error") w).1 = Level.Error ∧
    (SetLevelFromString (L "ERR") w).1 = Level.Error ∧
    (SetLevelFromString (L "err") w).1 = Level.Error ∧
    (SetLevelFromString (L "") w).1 = Level.Info ∧
    (SetLevelFromString (L "bogus") w).1 = Level.Info := by
  have h1 : L "debug" ≠ L "warn" := by decide
  have h2 : L "debug" ≠ L "warning" := by decide
  have h3 : L "debug" ≠ L "error" := by decide
  have h4 : L "debug" ≠ L "err" := by decide
  have h5 : L "warn" ≠ L "error" := by decide
  have h6 : L "warn" ≠ L "err" := by decide
  have h7 : L "warning" ≠ L "error" := by decide
  have h8 : L "warning" ≠ L "err" := by decide
  have hfst : ∀ t : wstring, (SetLevelFromString t w).1 = LevelFromString t := fun _ => rfl
  simp only [hfst]
  refine ⟨?_, ?_, ?_, ?_, rfl, ?_, by decide, by decide, by decide, by decide, by decide⟩
  · simp only [LevelFromString]
    split_ifs with a b c <;>
      first
        | (rcases b with b | b <;> simp_all)
        | (rcases c with c | c <;> simp_all)
        | simp_all
  · simp only [LevelFromString]
    split_ifs with a b c <;>
      first
        | (rcases b with b | b <;> simp_all)
        | (rcases c with c | c <;> simp_all)
        | simp_all
  · simp only [LevelFromString]
    split_ifs with a b c <;>
      first
        | (rcases b with b | b <;> simp_all)
        | (rcases c with c | c <;> simp_all)
        | simp_all
  · simp only [LevelFromString]
    split_ifs with a b c <;>
      first
        | (rcases b with b | b <;> simp_all)
        | (rcases c with c | c <;> simp_all)
        | simp_all
  · intro t ht
    simp only [LevelFromString, ht]

/-- C2, at a concrete input: "wArNiNg" and "WARNING" agree after lower-casing. -/
theorem C2_SetLevelFromString_total_witness :
    (SetLevelFromString (L "wArNiNg") (World.start (fun _ => []) 0 [])).1 =
      (SetLevelFromString (L "WARNING") (World.start (fun _ => []) 0 [])).1 :=
  (C2_SetLevelFromString_total (L "WARNING") (World.start (fun _ => []) 0 [])).2.2.2.2.2.1
    (L "wArNiNg") (by decide)

/-- C8. Level-name round trip: parsing the canonical code of a level gives the level
back ("DEBUG", "INFO", "WARN", "ERROR"), and "error" and "err" both parse to Error. -/
theorem C8_level_name_round_trip (lvl : Level) (w : World) :
    (SetLevelFromString (ToString lvl) w).1 = lvl ∧
    ToString Level.Debug = L "DEBUG" ∧ ToString Level.Info = L "INFO" ∧
    ToString Level.Warning = L "WARN" ∧ ToString Level.Error = L "ERROR" ∧
    (SetLevelFromString (L "error") w).1 = Level.Error ∧
    (SetLevelFromString (L "err") w).1 = Level.Error := by
  have hfst : ∀ t : wstring, (SetLevelFromString t w).1 = LevelFromString t := fun _ => rfl
  simp only [hfst]
  refine ⟨?_, rfl, rfl, rfl, rfl, by decide, by decide⟩
  cases lvl <;> decide

/-- C3, refuted as stated: on an open sink with threshold Error, `Log(Warning,
"ignored")` hands nothing to the debugger stream; the stream stays empty and does not
end with the line. -/
theorem C3_filtered_not_mirrored_counterexample :
    errorWorld.gLogFile = some (L "C:\\app\\Ultimate-ASI-Loader.log") ∧
    errorWorld.gCurrentLevel = Level.Error ∧
    errorWorld.debugOut = [] ∧
    (Log Level.Warning (L "ignored") sampleTime 42 errorWorld).debugOut = [] ∧
    (Log Level.Warning (L "ignored") sampleTime 42 errorWorld).debugOut ≠
      errorWorld.debugOut ++ [c_str (BuildLine Level.Warning (L "ignored") sampleTime)] := by
  decide

/-- C3, amended. A message whose level is below the threshold is dropped before any
output: `Log` appends nothing to any file, hands nothing to the debugger stream and
leaves the whole state as it was. -/
theorem C3_filtered_dropped (lvl : Level) (m : wstring) (st : SYSTEMTIME)
    (bytesWritten : Nat) (w : World) (hlt : lvl.toInt < w.gCurrentLevel.toInt) :
    (Log lvl m st bytesWritten w).disk = w.disk ∧
    (Log lvl m st bytesWritten w).debugOut = w.debugOut ∧
    Log lvl m st bytesWritten w = w := by
  rw [Log_below lvl m st bytesWritten w hlt]
  exact ⟨rfl, rfl, rfl⟩

/-- C3 amended, at the input of the scenario: threshold Error, `Log(Warning,
"ignored")`. -/
theorem C3_filtered_dropped_witness :
    (Log Level.Warning (L "ignored") sampleTime 42 errorWorld).disk = errorWorld.disk ∧
    (Log Level.Warning (L "ignored") sampleTime 42 errorWorld).debugOut =
      errorWorld.debugOut ∧
    Log Level.Warning (L "ignored") sampleTime 42 errorWorld = errorWorld :=
  C3_filtered_dropped Level.Warning (L "ignored") sampleTime 42 errorWorld (by decide)

/-- C4, refuted as stated: from process start, an `Initialize` whose open succeeds but
whose banner write fails, followed by a second `Initialize`, leaves the sink
initialized with one open handle and the file without any banner line; and on an open
sink two `Shutdown` calls whose banner write fails leave the file as it was. -/
theorem C4_banner_not_written_counterexample :
    freshWorld.gInitialized = false ∧
    (Initialize (L "C:\\app") [] true 45
      (Initialize (L "C:\\app") [] true 0 freshWorld)).gInitialized = true ∧
    (Initialize (L "C:\\app") [] true 45
      (Initialize (L "C:\\app") [] true 0 freshWorld)).gLogFile = some samplePath ∧
    (Initialize (L "C:\\app") [] true 45
      (Initialize (L "C:\\app") [] true 0 freshWorld)).openHandles = 1 ∧
    (Initialize (L "C:\\app") [] true 45
      (Initialize (L "C:\\app") [] true 0 freshWorld)).disk samplePath = [] ∧
    (Shutdown 0 (Shutdown 0 openWorld)).disk samplePath = openWorld.disk samplePath := by
  decide

/-- C4, amended. Idempotence of the lifecycle calls.  From an uninitialized state `w`,
an `Initialize` whose open succeeds leaves the sink initialized with one more open
handle than before and makes one write of the "logging started" banner: the file of
the handle gains the first `bytesWritten` bytes of the banner, so the banner exactly
once when `WriteFile` writes all 45 bytes and nothing when it fails; a second
`Initialize`, whatever its arguments and the system's answers, returns the same state.
From a state `v` with a valid handle `h`, `Shutdown` makes one write of the "logging
finished" banner (46 bytes) in the same way, closes the handle and clears the flag; a
second `Shutdown` returns the same state. -/
theorem C4_lifecycle_idempotent (d : path) (f : wstring) (n k : Nat) (w v : World)
    (h : path) (hun : w.gInitialized = false) (hfile : v.gLogFile = some h) :
    ((Initialize d f true n w).gLogFile = some (c_str (Initialize d f true n w).gLogPath) ∧
      (Initialize d f true n w).gInitialized = true ∧
      (Initialize d f true n w).openHandles = w.openHandles + 1 ∧
      (Initialize d f true n w).disk =
        Function.update w.disk (c_str (Initialize d f true n w).gLogPath)
          (w.disk (c_str (Initialize d f true n w).gLogPath) ++
            (header.map Char.toNat).take n) ∧
      (45 ≤ n →
        (Initialize d f true n w).disk =
          Function.update w.disk (c_str (Initialize d f true n w).gLogPath)
            (w.disk (c_str (Initialize d f true n w).gLogPath) ++ header.map Char.toNat)) ∧
      (n = 0 → (Initialize d f true n w).disk = w.disk)) ∧
    (∀ (d2 : path) (f2 : wstring) (g2 : Bool) (n2 : Nat),
      Initialize d2 f2 g2 n2 (Initialize d f true n w) = Initialize d f true n w) ∧
    ((Shutdown k v).gLogFile = INVALID_HANDLE_VALUE ∧
      (Shutdown k v).gInitialized = false ∧
      (Shutdown k v).openHandles = v.openHandles - 1 ∧
      (Shutdown k v).disk =
        Function.update v.disk h (v.disk h ++ (footer.map Char.toNat).take k) ∧
      (46 ≤ k →
        (Shutdown k v).disk = Function.update v.disk h (v.disk h ++ footer.map Char.toNat)) ∧
      (k = 0 → (Shutdown k v).disk = v.disk)) ∧
    (∀ k2 : Nat, Shutdown k2 (Shutdown k v) = Shutdown k v) ∧
    header = L "=== Ultimate ASI Loader logging started ===\r\n" ∧
    footer = L "=== Ultimate ASI Loader logging finished ===\r\n" ∧
    (header.map Char.toNat).length = 45 ∧ (footer.map Char.toNat).length = 46 := by
  have hI := Initialize_granted d f n w hun
  have hS := Shutdown_valid k v h hfile
  have hhead : utf8Encode header = header.map Char.toNat := by decide
  have hfoot : utf8Encode footer = footer.map Char.toNat := by decide
  have hlenH : (header.map Char.toNat).length = 45 := by decide
  have hlenF : (footer.map Char.toNat).length = 46 := by decide
  rw [hhead] at hI
  rw [hfoot] at hS
  have hdiskI := (congrArg World.disk hI).trans rfl
  have hdiskS := (congrArg World.disk hS).trans rfl
  refine ⟨⟨?_, ?_, ?_, hdiskI, ?_, ?_⟩, ?_, ⟨?_, ?_, ?_, hdiskS, ?_, ?_⟩, ?_, rfl, rfl,
    hlenH, hlenF⟩
  · exact (congrArg World.gLogFile hI).trans rfl
  · exact (congrArg World.gInitialized hI).trans rfl
  · exact (congrArg World.openHandles hI).trans rfl
  · intro hfull
    rw [hdiskI, List.take_of_length_le (by omega)]
  · intro hzero
    rw [hdiskI, hzero, List.take_zero, List.append_nil, Function.update_eq_self]
  · intro d2 f2 g2 n2
    exact Initialize_again d2 f2 g2 n2 _ ((congrArg World.gInitialized hI).trans rfl)
  · exact (Shutdown_globals k v).1
  · exact (Shutdown_globals k v).2
  · exact (congrArg World.openHandles hS).trans rfl
  · intro hfull
    rw [hdiskS, List.take_of_length_le (by omega)]
  · intro hzero
    rw [hdiskS, hzero, List.take_zero, List.append_nil, Function.update_eq_self]
  · intro k2
    rw [Shutdown_invalid k2 (Shutdown k v) (Shutdown_globals k v).1]
    have h2 := (Shutdown_globals k v).2
    generalize Shutdown k v = u at h2
    obtain ⟨_, ini, _, _, _, _, _⟩ := u
    simp only at h2
    subst h2
    rfl

/-- C4 amended, at a concrete input: `Initialize` twice from process start with the
directory `C:\app`, then `Shutdown` twice, every banner written in full; the file
then holds the started banner once, followed by the finished banner once. -/
theorem C4_lifecycle_idempotent_witness :
    Initialize (L "D:\\other") [] false 7 (Initialize (L "C:\\app") [] true 45 freshWorld) =
      Initialize (L "C:\\app") [] true 45 freshWorld ∧
    (Initialize (L "C:\\app") [] true 45 freshWorld).openHandles = freshWorld.openHandles + 1 ∧
    (Initialize (L "C:\\app") [] true 45 freshWorld).disk =
      Function.update freshWorld.disk
        (c_str (Initialize (L "C:\\app") [] true 45 freshWorld).gLogPath)
        (freshWorld.disk (c_str (Initialize (L "C:\\app") [] true 45 freshWorld).gLogPath) ++
          header.map Char.toNat) ∧
    (Shutdown 46 openWorld).disk =
      Function.update openWorld.disk samplePath
        (openWorld.disk samplePath ++ footer.map Char.toNat) ∧
    Shutdown 46 (Shutdown 46 openWorld) = Shutdown 46 openWorld ∧
    (Shutdown 46 (Shutdown 46 (Initialize (L "D:\\other") [] false 7
        (Initialize (L "C:\\app") [] true 45 freshWorld)))).disk samplePath =
      (L ("=== Ultimate ASI Loader logging started ===\r\n" ++
        "=== Ultimate ASI Loader logging finished ===\r\n")).map Char.toNat :=
  ⟨(C4_lifecycle_idempotent (L "C:\\app") [] 45 46 freshWorld openWorld samplePath
      (by decide) (by decide)).2.1 (L "D:\\other") [] false 7,
   (C4_lifecycle_idempotent (L "C:\\app") [] 45 46 freshWorld openWorld samplePath
      (by decide) (by decide)).1.2.2.1,
   (C4_lifecycle_idempotent (L "C:\\app") [] 45 46 freshWorld openWorld samplePath
      (by decide) (by decide)).1.2.2.2.2.1 (by decide),
   (C4_lifecycle_idempotent (L "C:\\app") [] 45 46 freshWorld openWorld samplePath
      (by decide) (by decide)).2.2.1.2.2.2.2.1 (by decide),
   (C4_lifecycle_idempotent (L "C:\\app") [] 45 46 freshWorld openWorld samplePath
      (by decide) (by decide)).2.2.2.1 46,
   by decide⟩

/-- One call keeps "the handle is valid exactly when the flag is set". -/
theorem exec_keeps_handle_iff_initialized (c : Call) (w : World)
    (hinv : w.gLogFile ≠ INVALID_HANDLE_VALUE ↔ w.gInitialized = true) :
    (c.exec w).gLogFile ≠ INVALID_HANDLE_VALUE ↔ (c.exec w).gInitialized = true := by
  cases c with
  | Initialize d f g n =>
    show (Initialize d f g n w).gLogFile ≠ INVALID_HANDLE_VALUE ↔
      (Initialize d f g n w).gInitialized = true
    by_cases hin : w.gInitialized = true
    · rw [Initialize_again d f g n w hin]
      exact hinv
    · have hun : w.gInitialized = false := by simpa using hin
      obtain ⟨h1, h2⟩ := Initialize_globals d f g n w hun
      rw [h1, h2]
      cases g <;> simp [INVALID_HANDLE_VALUE]
  | Shutdown n =>
    show (Shutdown n w).gLogFile ≠ INVALID_HANDLE_VALUE ↔ (Shutdown n w).gInitialized = true
    obtain ⟨h1, h2⟩ := Shutdown_globals n w
    rw [h1, h2]
    simp
  | SetLevel l => exact hinv
  | SetLevelFromString s => exact hinv
  | Log l m st n =>
    show (Log l m st n w).gLogFile ≠ INVALID_HANDLE_VALUE ↔
      (Log l m st n w).gInitialized = true
    rw [Log_frame l m st n w]
    exact hinv

/-- A sequence of calls keeps "the handle is valid exactly when the flag is set". -/
theorem run_keeps_handle_iff_initialized (calls : List Call) :
    ∀ w : World, (w.gLogFile ≠ INVALID_HANDLE_VALUE ↔ w.gInitialized = true) →
      ((run calls w).gLogFile ≠ INVALID_HANDLE_VALUE ↔ (run calls w).gInitialized = true) := by
  induction calls with
  | nil => intro w hinv; exact hinv
  | cons c rest ih =>
    intro w hinv
    exact ih (c.exec w) (exec_keeps_handle_iff_initialized c w hinv)

/-- C6. State invariant: in every state reached from process start (handle invalid,
flag false) by a sequence of `Initialize` (the open granted or refused), `Shutdown`,
`SetLevel`, `SetLevelFromString` and `Log` calls, whatever the system answers to each,
the file handle is valid if and only if the initialized flag is true. -/
theorem C6_handle_valid_iff_initialized (disk : path → List Nat) (n : Nat)
    (dbg : List wstring) (calls : List Call) :
    (run calls (World.start disk n dbg)).gLogFile ≠ INVALID_HANDLE_VALUE ↔
      IsInitialized (run calls (World.start disk n dbg)) = true :=
  run_keeps_handle_iff_initialized calls (World.start disk n dbg)
    (by simp [World.start])

/-- C7, refuted as stated: the time stamp does not always have the same length.  Both
local times are ones `GetLocalTime` can return; in the year 10000 the year takes five
characters and the time stamp 24 instead of 23. -/
theorem C7_fixed_width_counterexample :
    sampleTime.valid ∧ farTime.valid ∧
    FormatTimestamp sampleTime = L "2024-03-05 07:08:09.042" ∧
    FormatTimestamp farTime = L "10000-01-01 00:00:00.000" ∧
    (FormatTimestamp sampleTime).length = 23 ∧
    (FormatTimestamp farTime).length = 24 ∧
    (FormatTimestamp sampleTime).length ≠ (FormatTimestamp farTime).length := by
  decide

/-- C7, amended. Line format: for every level, message and local time, the line `Log`
builds for an accepted message (and hands to the debugger stream and to
`WriteLineUnlocked`) is `[` + time stamp + `] [` + `ToString(L)` + `] ` + message +
CR LF, the time stamp being year-month-day hour:minute:second.millisecond with
zero-padded fields that are never cut.  For every local time the clock can return,
month, day, hour, minute and second have exactly 2 characters and the millisecond 3;
the year has 4 characters up to the year 9999, and then the time stamp has 23, and 5
characters from the year 10000 on, and then the time stamp has 24. -/
theorem C7_line_format (lvl : Level) (m : wstring) (st : SYSTEMTIME) :
    BuildLine lvl m st =
      L "[" ++ FormatTimestamp st ++ L "] [" ++ ToString lvl ++ L "] " ++ m ++ L "\r\n" ∧
    (∀ (n : Nat) (w : World), w.gCurrentLevel.toInt ≤ lvl.toInt →
      Log lvl m st n w =
        WriteLineUnlocked (BuildLine lvl m st) n
          (OutputDebugStringW (BuildLine lvl m st) w)) ∧
    FormatTimestamp st =
      fmtU 4 st.wYear ++ L "-" ++ fmtU 2 st.wMonth ++ L "-" ++ fmtU 2 st.wDay ++ L " " ++
      fmtU 2 st.wHour ++ L ":" ++ fmtU 2 st.wMinute ++ L ":" ++ fmtU 2 st.wSecond ++
      L "." ++ fmtU 3 st.wMilliseconds ∧
    (∀ width n : Nat, fmtU width n =
      List.replicate (width - (Nat.toDigits 10 n).length) '0' ++ Nat.toDigits 10 n) ∧
    (∀ width n : Nat, width ≤ (fmtU width n).length) ∧
    (st.valid →
      ((fmtU 2 st.wMonth).length = 2 ∧ (fmtU 2 st.wDay).length = 2 ∧
        (fmtU 2 st.wHour).length = 2 ∧ (fmtU 2 st.wMinute).length = 2 ∧
        (fmtU 2 st.wSecond).length = 2 ∧ (fmtU 3 st.wMilliseconds).length = 3) ∧
      (st.wYear ≤ 9999 →
        (fmtU 4 st.wYear).length = 4 ∧ (FormatTimestamp st).length = 23) ∧
      (10000 ≤ st.wYear →
        (fmtU 4 st.wYear).length = 5 ∧ (FormatTimestamp st).length = 24)) := by
  refine ⟨BuildLine_eq lvl m st, fun n w hge => Log_accepted lvl m st n w hge, rfl,
    fun _ _ => rfl, fmtU_length_ge, ?_⟩
  rintro ⟨⟨_, hymax⟩, ⟨_, hmo⟩, _, ⟨_, hd⟩, hh, hmi, hs, hms⟩
  have e2 := fmtU_length 2 st.wMonth (by decide) (by norm_num; omega)
  have e3 := fmtU_length 2 st.wDay (by decide) (by norm_num; omega)
  have e4 := fmtU_length 2 st.wHour (by decide) (by norm_num; omega)
  have e5 := fmtU_length 2 st.wMinute (by decide) (by norm_num; omega)
  have e6 := fmtU_length 2 st.wSecond (by decide) (by norm_num; omega)
  have e7 := fmtU_length 3 st.wMilliseconds (by decide) (by norm_num; omega)
  refine ⟨⟨e2, e3, e4, e5, e6, e7⟩, fun hy => ?_, fun hy => ?_⟩
  · have e1 := fmtU_length 4 st.wYear (by decide) (by norm_num; omega)
    refine ⟨e1, ?_⟩
    simp only [FormatTimestamp, List.length_append, e1, e2, e3, e4, e5, e6, e7]
    rfl
  · have e1 := fmtU_length_succ 4 st.wYear (by norm_num; omega) (by norm_num; omega)
    refine ⟨e1, ?_⟩
    simp only [FormatTimestamp, List.length_append, e1, e2, e3, e4, e5, e6, e7]
    rfl

/-- C7 amended, at concrete inputs: a Warning on 5 March 2024, 07:08:09.042, and the
time stamp of 1 January 10000. -/
theorem C7_line_format_witness :
    BuildLine Level.Warning (L "disk low") sampleTime =
      L "[" ++ FormatTimestamp sampleTime ++ L "] [" ++ ToString Level.Warning ++ L "] " ++
        L "disk low" ++ L "\r\n" ∧
    (FormatTimestamp sampleTime).length = 23 ∧
    (FormatTimestamp farTime).length = 24 ∧
    BuildLine Level.Warning (L "disk low") sampleTime =
      L "[2024-03-05 07:08:09.042] [WARN] disk low\r\n" :=
  ⟨(C7_line_format Level.Warning (L "disk low") sampleTime).1,
   (((C7_line_format Level.Warning (L "disk low") sampleTime).2.2.2.2.2 (by decide)).2.1
      (by decide)).2,
   (((C7_line_format Level.Warning (L "disk low") farTime).2.2.2.2.2 (by decide)).2.2
      (by decide)).2,
   by decide⟩

/-- C9. Log path resolution: after `Initialize(d)` with a non-empty directory `d` on
an uninitialized sink, `GetLogFilePath()` is `d / "Ultimate-ASI-Loader.log"`, whether
the open was granted or refused.  When `d` is more than a bare root name, that is `d`,
a `\` unless `d` already ends in a separator, and the file name; for `C:\app` it is
`C:\app\Ultimate-ASI-Loader.log`. -/
theorem C9_log_path_resolution (d : path) (f : wstring) (g : Bool) (n : Nat)
    (w : World)
    (hd : d ≠ []) (hun : w.gInitialized = false) :
    GetLogFilePath (Initialize d f g n w) = path_append d (L "Ultimate-ASI-Loader.log") ∧
    (root_name_length d ≠ d.length →
      path_append d (L "Ultimate-ASI-Loader.log") =
        (if d.getLast?.any is_slash then d else d ++ [preferred_separator]) ++
          L "Ultimate-ASI-Loader.log") ∧
    GetLogFilePath (Initialize (L "C:\\app") f g n w) = L "C:\\app\\Ultimate-ASI-Loader.log" := by
  have hpath : ∀ e : path, e ≠ [] →
      GetLogFilePath (Initialize e f g n w) = path_append e (L "Ultimate-ASI-Loader.log") := by
    intro e he
    obtain ⟨_, ini, _, _, _, _, _⟩ := w
    simp only at hun
    subst hun
    have hne : e.isEmpty = false := by
      cases e with
      | nil => exact absurd rfl he
      | cons _ _ => rfl
    unfold GetLogFilePath Initialize
    cases g
    · simp [CreateFileW, INVALID_HANDLE_VALUE, hne, logFileName]
    · simp only [CreateFileW, INVALID_HANDLE_VALUE, hne, Bool.false_eq_true, if_false, if_true,
        ne_eq, not_false_eq_true, reduceCtorEq, Bool.not_false]
      rw [WriteLineUnlocked_frame]
      rfl
  refine ⟨hpath d hd, ?_, ?_⟩
  · intro hroot
    have habs : is_absolute (L "Ultimate-ASI-Loader.log") = false := by decide
    have hrn : root_name_length (L "Ultimate-ASI-Loader.log") = 0 := by decide
    have hhead : (L "Ultimate-ASI-Loader.log").head?.any is_slash = false := by
      decide
    have hroot' : ¬ root_name_length d = d.length := hroot
    unfold path_append
    simp only [habs, hrn, hroot', Bool.false_eq_true, if_false, ne_eq,
      not_true_eq_false, false_and, List.drop_zero, hhead]
  · rw [hpath (L "C:\\app") (by decide)]
    decide

/-- C9, at a concrete input: the directory `C:\app` with the open refused. -/
theorem C9_log_path_resolution_witness :
    GetLogFilePath (Initialize (L "C:\\app") [] false 45 freshWorld) =
      path_append (L "C:\\app") (L "Ultimate-ASI-Loader.log") ∧
    path_append (L "C:\\app") (L "Ultimate-ASI-Loader.log") =
      (if (L "C:\\app").getLast?.any is_slash then L "C:\\app"
        else L "C:\\app" ++ [preferred_separator]) ++ L "Ultimate-ASI-Loader.log" :=
  ⟨(C9_log_path_resolution (L "C:\\app") [] false 45 freshWorld (by decide) (by decide)).1,
   (C9_log_path_resolution (L "C:\\app") [] false 45 freshWorld (by decide) (by decide)).2.1
      (by decide)⟩

/-- C10. Silent open failure: on an uninitialized sink, for every directory (and
every answer of `GetModuleFileNameW` and `WriteFile`), an `Initialize` whose open fails returns with
the sink still uninitialized (`IsInitialized()` false, handle invalid), writes no
banner (no file changes, nothing reaches the debugger stream, no handle is opened)
and leaves the severity threshold as it was. -/
theorem C10_silent_open_failure (d : path) (f : wstring) (n : Nat) (w : World)
    (hun : w.gInitialized = false) :
    IsInitialized (Initialize d f false n w) = false ∧
    (Initialize d f false n w).gLogFile = INVALID_HANDLE_VALUE ∧
    (Initialize d f false n w).disk = w.disk ∧
    GetLevel (Initialize d f false n w) = GetLevel w ∧
    (Initialize d f false n w).debugOut = w.debugOut ∧
    (Initialize d f false n w).openHandles = w.openHandles := by
  have hI := Initialize_refused d f n w hun
  refine ⟨?_, ?_, ?_, ?_, ?_, ?_⟩
  · exact ((congrArg World.gInitialized hI).trans rfl).trans hun
  · exact (congrArg World.gLogFile hI).trans rfl
  · exact (congrArg World.disk hI).trans rfl
  · exact (congrArg World.gCurrentLevel hI).trans rfl
  · exact (congrArg World.debugOut hI).trans rfl
  · exact (congrArg World.openHandles hI).trans rfl

/-- C10, at a concrete input: process start, directory `C:\app`, the open refused. -/
theorem C10_silent_open_failure_witness :
    IsInitialized (Initialize (L "C:\\app") [] false 45 freshWorld) = false ∧
    (Initialize (L "C:\\app") [] false 45 freshWorld).gLogFile = INVALID_HANDLE_VALUE ∧
    (Initialize (L "C:\\app") [] false 45 freshWorld).disk = freshWorld.disk ∧
    GetLevel (Initialize (L "C:\\app") [] false 45 freshWorld) = GetLevel freshWorld ∧
    (Initialize (L "C:\\app") [] false 45 freshWorld).debugOut = freshWorld.debugOut ∧
    (Initialize (L "C:\\app") [] false 45 freshWorld).openHandles = freshWorld.openHandles :=
  C10_silent_open_failure (L "C:\\app") [] 45 freshWorld (by decide)

end Logging
